import Mathlib

/-!
Shallow embedding of the RAG pipeline repository (Telegram bot over Yandex GPT).

Source files embedded:
- `src/config.py`: constants (model names, prompts, limits).
- `src/rag/yandex_gpt.py`: `YandexGPT.generate_completion` — translation of the
  normalized message list into the Yandex wire shape, and extraction of the
  answer from the remote response.
- `src/rag/yandex_embedder.py`: `YandexEmbedder.embed_text` / `embed_texts` /
  `get_embedding_dimension` — truncation, dimension tracking, per-text calls.
- `src/rag/pipeline.py`: `RAGPipeline.query`, `query_with_history`,
  `index_documents`.

The remote HTTP services, and the `FAISSVectorStore` / `DocumentRetriever`
components (imported by the pipeline but external to the embedded orchestration
logic), are modelled as environment records of fallible functions
(`Except String _`, the error string standing for the raised exception's
description, as Python's `str(e)` produces it).  The texts actually sent to the
remote embedding service, and the vector-store operations actually invoked
during indexing, are additionally reified as event traces so that ordering and
call-shape claims can be stated.

Remote responses are modelled as `Except err (Option payload)`: `.error`
stands for a transport failure (`requests` exception / non-2xx status), while
`.ok none` stands for a 2xx response whose JSON body lacks the field the
client expects (`"embedding"` for the embedder, `"result"/"alternatives"` for
the completion client).  Embedding vectors are lists over an arbitrary scalar
type `α`, since none of the embedded code inspects vector components — only
their count.
-/

namespace RAGBot

/-! ## Constants from `src/config.py` -/

/-- `YANDEX_GPT_MODEL` from `src/config.py`. -/
def YANDEX_GPT_MODEL : String := "yandexgpt-lite"

/-- `SYSTEM_PROMPT` from `src/config.py`. -/
def SYSTEM_PROMPT : String :=
  "Ты — интеллектуальный ассистент с доступом к базе знаний.\nТвоя задача — отвечать на вопросы пользователей, опираясь на предоставленный контекст.\n\nПравила работы:\n1. Используй информацию из контекста базы знаний для формирования ответа\n2. Учитывай историю предыдущих сообщений для понимания контекста разговора\n3. Если пользователь спрашивает про \"это\", \"то\", \"предыдущий вопрос\" - смотри в историю\n4. Если в контексте нет информации для ответа, честно скажи об этом\n5. Отвечай на русском языке четко и структурированно\n6. Если уместно, используй списки и пункты для лучшей читаемости\n7. Будь вежливым и профессиональным\n"

/-- `TOP_K_RESULTS` from `src/config.py`. -/
def TOP_K_RESULTS : Nat := 3

/-- `MAX_CONTEXT_LENGTH` from `src/config.py`. -/
def MAX_CONTEXT_LENGTH : Nat := 3000

/-- `MAX_HISTORY_LENGTH` from `src/config.py` (number of question/answer pairs). -/
def MAX_HISTORY_LENGTH : Nat := 10

/-- `RAG_PROMPT_TEMPLATE.format(context=..., query=...)` from `src/config.py`:
the fixed context-and-query prompt template with both holes substituted. -/
def ragPromptTemplate (context query : String) : String :=
  "Контекст из базы знаний:\n" ++ context ++ "\n\nВопрос пользователя: " ++ query ++ "\n\nОтвет:"

/-! ## Messages -/

/-- A normalized chat message as the pipeline builds it: role plus content
(the Python dict with keys "role" and "content"). -/
structure Message where
  role : String
  content : String
deriving Repr, DecidableEq

/-- A message in the Yandex wire format: role plus text
(the Python dict with keys "role" and "text"). -/
structure YMessage where
  role : String
  text : String
deriving Repr, DecidableEq

/-! ## `src/rag/yandex_gpt.py`: YandexGPT -/

/-- The fixed marker prepended to a system message's content when it is
re-sent as a user-role message (`src/rag/yandex_gpt.py`, line 65). -/
def sysInstructionMark : String := "Системная инструкция: "

/-- The message of the `ValueError` both clients raise on a response body
lacking the expected field (`yandex_gpt.py` line 104, `yandex_embedder.py`
line 95). -/
def malformedResponseMsg : String := "Неверный формат ответа от Yandex API"

/-- The message-translation loop of `YandexGPT.generate_completion`
(`src/rag/yandex_gpt.py`, lines 58-71): each normalized message becomes a
Yandex wire message; a system-role entry becomes a user-role entry whose text
is the marked system content, every other entry keeps role and content. -/
def toYandexMessages (messages : List Message) : List YMessage :=
  messages.map fun msg =>
    if msg.role = "system" then
      { role := "user", text := sysInstructionMark ++ msg.content }
    else
      { role := msg.role, text := msg.content }

/-- Environment of `YandexGPT`: the remote completion endpoint.  `.error e`
models a transport failure raising an exception with description `e`;
`.ok none` models a 2xx response without `result.alternatives`;
`.ok (some a)` models a well-formed response with answer text `a`. -/
structure GPTEnv where
  complete : List YMessage → Except String (Option String)

/-- `YandexGPT.generate_completion` (`src/rag/yandex_gpt.py`, lines 42-111):
translates the messages, calls the remote endpoint, returns the answer text,
and raises `ValueError` on a malformed response body.  Errors propagate to
the caller (`raise` in both `except` arms). -/
def generate_completion (env : GPTEnv) (messages : List Message) : Except String String :=
  match env.complete (toYandexMessages messages) with
  | .error e => .error e
  | .ok none => .error malformedResponseMsg
  | .ok (some answer) => .ok answer

/-! ## `src/rag/yandex_embedder.py`: YandexEmbedder -/

/-- Mutable state of `YandexEmbedder`: the stored `_dimension`. -/
structure EmbedderState where
  dimension : Nat
deriving Repr, DecidableEq

/-- Initial embedder state: `self._dimension = 256`
(`src/rag/yandex_embedder.py`, line 42). -/
def embedderInit : EmbedderState := { dimension := 256 }

/-- Environment of `YandexEmbedder`: the remote embedding endpoint, responses
modelled like `GPTEnv.complete` (`.ok none` = body without `"embedding"`). -/
structure EmbedEnv (α : Type) where
  embed_remote : String → Except String (Option (List α))

/-- The truncation applied in `YandexEmbedder.embed_text`
(`src/rag/yandex_embedder.py`, lines 60-61): texts longer than 10000
characters are cut to their first 10000 characters. -/
def truncateText (text : String) : String :=
  if 10000 < text.length then text.take 10000 else text

/-- `YandexEmbedder.embed_text` (`src/rag/yandex_embedder.py`, lines 48-102):
truncates, sends the text, and on a well-formed response stores the returned
vector's length as the new dimension when it differs from the stored one.
Returns `(outcome, new embedder state, texts sent to the remote service)`. -/
def embed_text (st : EmbedderState) (env : EmbedEnv α) (text : String) :
    Except String (List α) × EmbedderState × List String :=
  let t := truncateText text
  match env.embed_remote t with
  | .error e => (.error e, st, [t])
  | .ok none => (.error malformedResponseMsg, st, [t])
  | .ok (some embedding) =>
    let st' := if embedding.length ≠ st.dimension then { dimension := embedding.length } else st
    (.ok embedding, st', [t])

/-- `YandexEmbedder.embed_texts` (`src/rag/yandex_embedder.py`, lines
104-130): embeds each text in order with one `embed_text` call each; the
first exception aborts the loop and propagates (`raise` in the `except` arm).
Returns `(outcome, final embedder state, texts sent in order)`. -/
def embed_texts (env : EmbedEnv α) : EmbedderState → List String →
    Except String (List (List α)) × EmbedderState × List String
  | st, [] => (.ok [], st, [])
  | st, text :: rest =>
    match embed_text st env text with
    | (.error e, st', sent) => (.error e, st', sent)
    | (.ok v, st', sent) =>
      match embed_texts env st' rest with
      | (.error e, st'', sent') => (.error e, st'', sent ++ sent')
      | (.ok vs, st'', sent') => (.ok (v :: vs), st'', sent ++ sent')

/-- `YandexEmbedder.get_embedding_dimension` (`src/rag/yandex_embedder.py`,
lines 132-139): returns the stored dimension. -/
def get_embedding_dimension (st : EmbedderState) : Nat := st.dimension

/-! ## `src/rag/pipeline.py`: RAGPipeline -/

/-- The result dict of `RAGPipeline.query_with_history`. -/
structure QueryResult where
  answer : String
  context : String
  sources : List String
  model : String
  clean_query : String
deriving Repr, DecidableEq

/-- Mutable state of `RAGPipeline` relevant to the embedded operations:
the `is_loaded` flag. -/
structure RAGPipeline where
  is_loaded : Bool
deriving Repr, DecidableEq

/-- Environment of a query: the retriever operations (whose implementation
lives in `rag/retriever.py`, outside the embedded orchestration logic) and
the completion call, each able to raise. -/
structure QueryEnv where
  retrieve_context : String → Nat → Nat → Except String String
  get_relevant_sources : String → Nat → Except String (List String)
  generate_completion : List Message → Except String String

/-- A `QueryEnv` whose completion call is the embedded
`YandexGPT.generate_completion` over a `GPTEnv`, as `RAGPipeline.__init__`
wires `self.llm` (`src/rag/pipeline.py`, lines 42 and 127-131). -/
def mkQueryEnv (rc : String → Nat → Nat → Except String String)
    (rs : String → Nat → Except String (List String)) (gpt : GPTEnv) : QueryEnv :=
  { retrieve_context := rc
    get_relevant_sources := rs
    generate_completion := fun msgs => generate_completion gpt msgs }

/-- The fixed answer returned when no index is loaded
(`src/rag/pipeline.py`, line 86). -/
def notLoadedMsg : String :=
  "❌ База знаний не загружена. Выполните команду /ingest для индексации документов."

/-- The fixed marker prepended to the exception description in the error
answer (`src/rag/pipeline.py`, line 147). -/
def errorAnswerMark : String := "❌ Произошла ошибка при обработке запроса: "

/-- The `FAILED` result of `query_with_history` (`src/rag/pipeline.py`,
lines 144-152): error-marked answer, empty context and sources. -/
def errorResult (e query : String) : QueryResult :=
  { answer := errorAnswerMark ++ e
    context := ""
    sources := []
    model := YANDEX_GPT_MODEL
    clean_query := query }

/-- Steps 3-4 of `query_with_history` (`src/rag/pipeline.py`, lines
111-122): start from the system message, append the recent history when the
history is nonempty (at most the last `10 * 2` entries), then append the
user message carrying the prompt. -/
def buildMessages (history : List Message) (prompt : String) : List Message :=
  let base : List Message := [{ role := "system", content := SYSTEM_PROMPT }]
  let withHistory :=
    if history.isEmpty then base
    else
      let max_history_items := 10 * 2
      let recent_history :=
        if max_history_items < history.length then
          history.drop (history.length - max_history_items)
        else history
      base ++ recent_history
  withHistory ++ [{ role := "user", content := prompt }]

/-- The body of the `try` block of `query_with_history`
(`src/rag/pipeline.py`, lines 93-131): retrieve context, retrieve sources,
format the prompt, build the message list, generate the answer.  The first
exception aborts the sequence. -/
def queryCore (env : QueryEnv) (query : String) (history : List Message)
    (top_k : Nat) : Except String (String × String × List String) :=
  match env.retrieve_context query top_k MAX_CONTEXT_LENGTH with
  | .error e => .error e
  | .ok context =>
    match env.get_relevant_sources query top_k with
    | .error e => .error e
    | .ok sources =>
      let prompt_with_context := ragPromptTemplate context query
      let messages := buildMessages history prompt_with_context
      match env.generate_completion messages with
      | .error e => .error e
      | .ok answer => .ok (answer, context, sources)

/-- `RAGPipeline.query_with_history` (`src/rag/pipeline.py`, lines 66-152):
defaults a missing history to the empty list, short-circuits when no index
is loaded, otherwise runs the query core and catches any exception into the
error result. -/
def query_with_history (p : RAGPipeline) (env : QueryEnv) (query : String)
    (history : Option (List Message)) (top_k : Nat) : QueryResult :=
  let hist := history.getD []
  if !p.is_loaded then
    { answer := notLoadedMsg
      context := ""
      sources := []
      model := YANDEX_GPT_MODEL
      clean_query := query }
  else
    match queryCore env query hist top_k with
    | .ok (answer, context, sources) =>
      { answer := answer
        context := context
        sources := sources
        model := YANDEX_GPT_MODEL
        clean_query := query }
    | .error e => errorResult e query

/-- `RAGPipeline.query` (`src/rag/pipeline.py`, lines 53-64): delegates to
`query_with_history` with an explicit empty history. -/
def query (p : RAGPipeline) (env : QueryEnv) (q : String) (top_k : Nat) : QueryResult :=
  query_with_history p env q (some []) top_k

/-! ## Indexing (`RAGPipeline.index_documents`) -/

/-- Observable calls made during an indexing run: one remote embedding call
per (truncated) text, plus the vector-store operations. -/
inductive IndexEvent (α : Type) where
  | embedCall (text : String)
  | createIndex (dim : Nat)
  | addDocuments (texts : List String) (embeddings : List (List α)) (sources : List String)
  | save
deriving Repr, DecidableEq

/-- Environment of an indexing run: the remote embedding endpoint plus the
vector-store operations (implemented in `rag/vectorstore.py`, outside the
embedded orchestration logic), each able to raise. -/
structure IndexEnv (α : Type) where
  embed : EmbedEnv α
  create_index : Nat → Except String Unit
  add_documents : List String → List (List α) → List String → Except String Unit
  save : Except String Unit

/-- `RAGPipeline.index_documents` (`src/rag/pipeline.py`, lines 175-209):
embed all documents, create a fresh index sized to the embedder's reported
dimension, add the documents, save, and only then set `is_loaded` and return
`True`; any exception yields `False` with the pipeline state unchanged.
Returns `(flag, new pipeline state, new embedder state, event trace)`. -/
def index_documents (p : RAGPipeline) (st : EmbedderState) (env : IndexEnv α)
    (documents sources : List String) :
    Bool × RAGPipeline × EmbedderState × List (IndexEvent α) :=
  match embed_texts env.embed st documents with
  | (.error _, st', sent) => (false, p, st', sent.map IndexEvent.embedCall)
  | (.ok embeddings, st', sent) =>
    let trace := sent.map (IndexEvent.embedCall (α := α))
    let dimension := get_embedding_dimension st'
    match env.create_index dimension with
    | .error _ => (false, p, st', trace ++ [IndexEvent.createIndex dimension])
    | .ok _ =>
      match env.add_documents documents embeddings sources with
      | .error _ =>
        (false, p, st', trace ++ [IndexEvent.createIndex dimension,
          IndexEvent.addDocuments documents embeddings sources])
      | .ok _ =>
        match env.save with
        | .error _ =>
          (false, p, st', trace ++ [IndexEvent.createIndex dimension,
            IndexEvent.addDocuments documents embeddings sources, IndexEvent.save])
        | .ok _ =>
          (true, { p with is_loaded := true }, st',
            trace ++ [IndexEvent.createIndex dimension,
              IndexEvent.addDocuments documents embeddings sources, IndexEvent.save])

/-! ## Concrete environments used to evaluate the theorems -/

/-- A query environment whose retrieval step raises. -/
def demoFailEnv : QueryEnv :=
  { retrieve_context := fun _ _ _ => .error "boom"
    get_relevant_sources := fun _ _ => .error "boom"
    generate_completion := fun _ => .error "boom" }

/-- A query environment where every step succeeds. -/
def demoOkEnv : QueryEnv :=
  { retrieve_context := fun _ _ _ => .ok "ctx"
    get_relevant_sources := fun _ _ => .ok ["s1"]
    generate_completion := fun _ => .ok "answer" }

/-- A history of 22 entries, more than the `10 * 2` the pipeline keeps. -/
def demoHist : List Message := List.replicate 22 { role := "user", content := "m" }

/-- A remote embedding endpoint that always answers with the vector `[1, 2, 3]`. -/
def demoEmbedEnv : EmbedEnv Int := { embed_remote := fun _ => .ok (some [1, 2, 3]) }

/-- A remote embedding endpoint whose response body lacks the expected field. -/
def badFieldEmbedEnv : EmbedEnv Int := { embed_remote := fun _ => .ok none }

/-- A remote completion endpoint whose response body lacks the expected field. -/
def badFieldGPTEnv : GPTEnv := { complete := fun _ => .ok none }

/-- A retrieval function that always succeeds with context "ctx". -/
def okRC : String → Nat → Nat → Except String String := fun _ _ _ => .ok "ctx"

/-- A source-lookup function that always succeeds with `["s1"]`. -/
def okRS : String → Nat → Except String (List String) := fun _ _ => .ok ["s1"]

/-- An indexing environment where every step succeeds and every vector is `[1]`. -/
def demoIndexEnv : IndexEnv Int :=
  { embed := { embed_remote := fun _ => .ok (some [1]) }
    create_index := fun _ => .ok ()
    add_documents := fun _ _ _ => .ok ()
    save := .ok () }

/-- An indexing environment whose persistence step raises. -/
def demoSaveFailIndexEnv : IndexEnv Int :=
  { embed := { embed_remote := fun _ => .ok (some [1]) }
    create_index := fun _ => .ok ()
    add_documents := fun _ _ _ => .ok ()
    save := .error "disk full" }

/-! ## Helper lemmas -/

/-- The only text `embed_text` sends to the remote service is the truncated
input, in every branch. -/
theorem embed_text_sent_eq (st : EmbedderState) (env : EmbedEnv α) (text : String) :
    (embed_text st env text).2.2 = [truncateText text] := by
  simp only [embed_text]
  split <;> rfl

/-- On success, `embed_texts` sends exactly the truncations of its inputs, in
input order. -/
theorem embed_texts_sent_eq (env : EmbedEnv α) (st : EmbedderState)
    (texts : List String) (embs : List (List α)) (st' : EmbedderState)
    (sent : List String) (h : embed_texts env st texts = (.ok embs, st', sent)) :
    sent = texts.map truncateText := by
  induction texts generalizing st embs st' sent with
  | nil =>
    simp only [embed_texts, Prod.mk.injEq] at h
    simp [← h.2.2]
  | cons t ts ih =>
    simp only [embed_texts] at h
    split at h
    · simp at h
    · rename_i v st1 sent1 heq
      split at h
      · simp at h
      · rename_i vs st2 sent2 heq2
        simp only [Prod.mk.injEq, Except.ok.injEq] at h
        obtain ⟨hv, hst, hsent⟩ := h
        have hs1 : sent1 = [truncateText t] := by
          have h2 := embed_text_sent_eq st env t
          rw [heq] at h2
          exact h2
        rw [← hsent, hs1, ih st1 vs st2 sent2 heq2]
        simp

/-- The message list built by the pipeline is the system message, then the
most recent at most `2 * MAX_HISTORY_LENGTH` history entries, then the user
message, for every history (`List.drop (len - 20)` is the whole list when
`len ≤ 20`). -/
theorem buildMessages_eq (history : List Message) (prompt : String) :
    buildMessages history prompt =
      { role := "system", content := SYSTEM_PROMPT } ::
        (history.drop (history.length - 2 * MAX_HISTORY_LENGTH) ++
          [{ role := "user", content := prompt }]) := by
  cases history with
  | nil => simp [buildMessages]
  | cons m rest =>
    by_cases hlen : 20 < rest.length + 1
    · simp [buildMessages, hlen, MAX_HISTORY_LENGTH]
    · have h0 : rest.length - 19 = 0 := by omega
      have h0' : rest.length + 1 - 20 = 0 := by omega
      simp [buildMessages, hlen, MAX_HISTORY_LENGTH, h0, h0']

/-! ## Claim theorems -/

/-- C2: On a pipeline whose index is not loaded, `query_with_history`
returns the fixed not-loaded result (not-loaded answer, empty context, empty
sources, the configured chat model name, and the input query as
`clean_query`), without raising and without consulting the retrieval or
generation environment at all. -/
theorem query_with_history_not_loaded (p : RAGPipeline) (env : QueryEnv)
    (q : String) (history : Option (List Message)) (top_k : Nat)
    (h : p.is_loaded = false) :
    query_with_history p env q history top_k =
      { answer := notLoadedMsg
        context := ""
        sources := []
        model := YANDEX_GPT_MODEL
        clean_query := q } ∧
    ∀ env' : QueryEnv, query_with_history p env' q history top_k =
      query_with_history p env q history top_k := by
  constructor
  · simp [query_with_history, h]
  · intro env'
    simp [query_with_history, h]

/-- Witness for C2: the not-loaded result on a concrete unloaded pipeline. -/
theorem query_with_history_not_loaded_witness :
    query_with_history { is_loaded := false } demoOkEnv "q" none 3 =
      { answer := notLoadedMsg
        context := ""
        sources := []
        model := YANDEX_GPT_MODEL
        clean_query := "q" } ∧
    ∀ env' : QueryEnv, query_with_history { is_loaded := false } env' "q" none 3 =
      query_with_history { is_loaded := false } demoOkEnv "q" none 3 :=
  query_with_history_not_loaded { is_loaded := false } demoOkEnv "q" none 3 rfl

/-- C6: The completion client's translation to the remote wire format
preserves length and positional order; every entry becomes a two-field
(role, text) wire message; a system-role entry becomes a user-role entry
carrying the marked system content; every other entry keeps its role and
content unchanged. -/
theorem toYandexMessages_shape (messages : List Message) :
    (toYandexMessages messages).length = messages.length ∧
    ∀ i : Nat, (toYandexMessages messages)[i]? =
      (messages[i]?).map fun msg =>
        if msg.role = "system" then
          { role := "user", text := sysInstructionMark ++ msg.content }
        else
          { role := msg.role, text := msg.content } := by
  constructor
  · simp [toYandexMessages]
  · intro i
    simp [toYandexMessages]

/-- C8: The embedder's reported dimension starts at the configured default
256 and, after any successful embedding call, equals the length of the
vector just received (the stored dimension is updated whenever the received
length differs). -/
theorem embedder_dimension_tracks (α : Type) (st : EmbedderState)
    (env : EmbedEnv α) (text : String) :
    get_embedding_dimension embedderInit = 256 ∧
    ∀ (v : List α) (st' : EmbedderState) (sent : List String),
      embed_text st env text = (.ok v, st', sent) →
      get_embedding_dimension st' = v.length := by
  refine ⟨rfl, ?_⟩
  intro v st' sent h
  simp only [embed_text] at h
  split at h
  · simp at h
  · simp at h
  · rename_i embedding heq
    simp only [Prod.mk.injEq, Except.ok.injEq] at h
    obtain ⟨hv, hst, -⟩ := h
    subst hv
    rw [← hst]
    by_cases hd : embedding.length = st.dimension
    · simp [hd, get_embedding_dimension]
    · simp [hd, get_embedding_dimension]

/-- Witness for C8: a successful call returning a 3-vector leaves the
dimension at 3. -/
theorem embedder_dimension_tracks_witness :
    get_embedding_dimension embedderInit = 256 ∧
    get_embedding_dimension { dimension := 3 } = ([1, 2, 3] : List Int).length :=
  ⟨(embedder_dimension_tracks Int embedderInit demoEmbedEnv "t").1,
   (embedder_dimension_tracks Int embedderInit demoEmbedEnv "t").2
     [1, 2, 3] { dimension := 3 } ["t"] rfl⟩

/-- C9: The single text `embed_text` sends to the remote service is the
input truncated to its first 10000 characters when the input is longer than
10000 characters, and the unchanged input otherwise. -/
theorem embed_text_truncates (α : Type) (st : EmbedderState) (env : EmbedEnv α)
    (text : String) :
    (embed_text st env text).2.2 =
      [if 10000 < text.length then text.take 10000 else text] :=
  embed_text_sent_eq st env text

/-- C10: `query` is exactly `query_with_history` with the empty history, and
a missing history behaves as the empty history. -/
theorem query_eq_query_with_history (p : RAGPipeline) (env : QueryEnv)
    (q : String) (top_k : Nat) :
    query p env q top_k = query_with_history p env q (some []) top_k ∧
    query_with_history p env q none top_k =
      query_with_history p env q (some []) top_k :=
  ⟨rfl, rfl⟩

/-- C1: On a loaded pipeline, any exception raised during the retrieval /
source-lookup / prompt / completion sequence is converted into the fixed
error result (error-marked answer embedding the exception description, empty
context, empty sources); and in every case `query_with_history` returns a
well-formed result whose model is the configured chat model and whose
`clean_query` is the input query — it never propagates an exception, being a
total function into `QueryResult`. -/
theorem query_with_history_catches (p : RAGPipeline) (env : QueryEnv)
    (q : String) (history : Option (List Message)) (top_k : Nat) :
    ((query_with_history p env q history top_k).model = YANDEX_GPT_MODEL ∧
     (query_with_history p env q history top_k).clean_query = q) ∧
    ∀ e : String, p.is_loaded = true →
      queryCore env q (history.getD []) top_k = .error e →
      query_with_history p env q history top_k =
        { answer := errorAnswerMark ++ e
          context := ""
          sources := []
          model := YANDEX_GPT_MODEL
          clean_query := q } := by
  constructor
  · cases hl : p.is_loaded
    · simp [query_with_history, hl]
    · cases hq : queryCore env q (history.getD []) top_k with
      | error e => simp [query_with_history, hl, hq, errorResult]
      | ok val =>
        obtain ⟨a, c, s⟩ := val
        simp [query_with_history, hl, hq]
  · intro e hl hq
    simp [query_with_history, hl, hq, errorResult]

/-- Witness for C1: a retrieval failure with description "boom" yields the
error result. -/
theorem query_with_history_catches_witness :
    query_with_history { is_loaded := true } demoFailEnv "q" none 3 =
      { answer := errorAnswerMark ++ "boom"
        context := ""
        sources := []
        model := YANDEX_GPT_MODEL
        clean_query := "q" } :=
  (query_with_history_catches { is_loaded := true } demoFailEnv "q" none 3).2
    "boom" rfl rfl

/-- C4: On a loaded pipeline with successful retrieval, the message sequence
handed to the completion client is exactly the system message, then the most
recent at most `2 * MAX_HISTORY_LENGTH` history entries in their original
order (older entries dropped), then one user message holding the prompt
template with the retrieved context and the query substituted in; the
result is built from whatever the completion client returns on exactly that
sequence. -/
theorem generation_messages (p : RAGPipeline) (env : QueryEnv) (q : String)
    (hist : List Message) (top_k : Nat) (c : String) (s : List String)
    (hload : p.is_loaded = true)
    (hctx : env.retrieve_context q top_k MAX_CONTEXT_LENGTH = .ok c)
    (hsrc : env.get_relevant_sources q top_k = .ok s) :
    query_with_history p env q (some hist) top_k =
      match env.generate_completion
          ({ role := "system", content := SYSTEM_PROMPT } ::
            (hist.drop (hist.length - 2 * MAX_HISTORY_LENGTH) ++
              [{ role := "user", content := ragPromptTemplate c q }])) with
      | .ok a =>
        { answer := a
          context := c
          sources := s
          model := YANDEX_GPT_MODEL
          clean_query := q }
      | .error e => errorResult e q := by
  have hmsg := buildMessages_eq hist (ragPromptTemplate c q)
  rw [← hmsg]
  simp only [query_with_history, queryCore, Option.getD_some, hload, hctx, hsrc,
    Bool.not_true]
  cases hg : env.generate_completion (buildMessages hist (ragPromptTemplate c q)) with
  | error e => simp [hg]
  | ok a => simp [hg]

/-- Witness for C4: a 22-entry history on a concrete successful environment. -/
theorem generation_messages_witness :
    query_with_history { is_loaded := true } demoOkEnv "q" (some demoHist) 3 =
      match demoOkEnv.generate_completion
          ({ role := "system", content := SYSTEM_PROMPT } ::
            (demoHist.drop (demoHist.length - 2 * MAX_HISTORY_LENGTH) ++
              [{ role := "user", content := ragPromptTemplate "ctx" "q" }])) with
      | .ok a =>
        { answer := a
          context := "ctx"
          sources := ["s1"]
          model := YANDEX_GPT_MODEL
          clean_query := "q" }
      | .error e => errorResult e "q" :=
  generation_messages { is_loaded := true } demoOkEnv "q" demoHist 3 "ctx" ["s1"]
    rfl rfl rfl

/-- C7: A 2xx response whose body lacks the expected field makes the
embedding client and the completion client raise (`.error` with the fixed
malformed-response description) instead of returning a value; and at the
pipeline boundary this condition is converted into the error-marked answer,
exactly like any other upstream failure. -/
theorem malformed_response_is_error (α : Type) (st : EmbedderState)
    (eenv : EmbedEnv α) (text : String)
    (rc : String → Nat → Nat → Except String String)
    (rs : String → Nat → Except String (List String)) (gpt : GPTEnv)
    (p : RAGPipeline) (q : String) (history : Option (List Message))
    (top_k : Nat) (c : String) (s : List String) :
    (eenv.embed_remote (truncateText text) = .ok none →
      (embed_text st eenv text).1 = .error malformedResponseMsg) ∧
    (∀ msgs : List Message, gpt.complete (toYandexMessages msgs) = .ok none →
      generate_completion gpt msgs = .error malformedResponseMsg) ∧
    (p.is_loaded = true →
      rc q top_k MAX_CONTEXT_LENGTH = .ok c →
      rs q top_k = .ok s →
      gpt.complete (toYandexMessages (buildMessages (history.getD [])
        (ragPromptTemplate c q))) = .ok none →
      query_with_history p (mkQueryEnv rc rs gpt) q history top_k =
        errorResult malformedResponseMsg q) := by
  refine ⟨?_, ?_, ?_⟩
  · intro h
    simp [embed_text, h]
  · intro msgs h
    simp [generate_completion, h]
  · intro hl hc hs hg
    simp [query_with_history, queryCore, mkQueryEnv, hl, hc, hs,
      generate_completion, hg, errorResult]

/-- Witness for C7: concrete field-lacking responses for both clients and
the resulting pipeline answer. -/
theorem malformed_response_is_error_witness :
    (embed_text embedderInit badFieldEmbedEnv "t").1 = .error malformedResponseMsg ∧
    generate_completion badFieldGPTEnv [] = .error malformedResponseMsg ∧
    query_with_history { is_loaded := true } (mkQueryEnv okRC okRS badFieldGPTEnv)
        "q" none 3 =
      errorResult malformedResponseMsg "q" :=
  ⟨(malformed_response_is_error Int embedderInit badFieldEmbedEnv "t" okRC okRS
      badFieldGPTEnv { is_loaded := true } "q" none 3 "ctx" ["s1"]).1 rfl,
   (malformed_response_is_error Int embedderInit badFieldEmbedEnv "t" okRC okRS
      badFieldGPTEnv { is_loaded := true } "q" none 3 "ctx" ["s1"]).2.1 [] rfl,
   (malformed_response_is_error Int embedderInit badFieldEmbedEnv "t" okRC okRS
      badFieldGPTEnv { is_loaded := true } "q" none 3 "ctx" ["s1"]).2.2
      rfl rfl rfl rfl⟩

/-- C3: `index_documents` always returns a boolean outcome; the pipeline
ends up loaded exactly when it already was or the run returned `true`; and
the run returns `true` exactly when the embed, create-index, add and persist
steps all completed — so a failed run never newly marks the pipeline
loaded. -/
theorem index_documents_safety (α : Type) (p : RAGPipeline)
    (st : EmbedderState) (env : IndexEnv α) (documents sources : List String) :
    (index_documents p st env documents sources).2.1.is_loaded =
      (p.is_loaded || (index_documents p st env documents sources).1) ∧
    ((index_documents p st env documents sources).1 = true ↔
      ∃ embeddings : List (List α),
        (embed_texts env.embed st documents).1 = .ok embeddings ∧
        env.create_index (embed_texts env.embed st documents).2.1.dimension = .ok () ∧
        env.add_documents documents embeddings sources = .ok () ∧
        env.save = .ok ()) := by
  rcases het : embed_texts env.embed st documents with ⟨res, st', sent⟩
  cases res with
  | error e => simp [index_documents, het]
  | ok embeddings =>
    cases hc : env.create_index st'.dimension with
    | error e => simp [index_documents, het, hc, get_embedding_dimension]
    | ok u =>
      cases u
      cases ha : env.add_documents documents embeddings sources with
      | error e => simp [index_documents, het, hc, ha, get_embedding_dimension]
      | ok u2 =>
        cases u2
        cases hs : env.save with
        | error e => simp [index_documents, het, hc, ha, hs, get_embedding_dimension]
        | ok u3 =>
          cases u3
          simp [index_documents, het, hc, ha, hs, get_embedding_dimension]

/-- Witness for C3: a run whose persistence step raises leaves a previously
unloaded pipeline unloaded. -/
theorem index_documents_safety_witness :
    (index_documents { is_loaded := false } embedderInit demoSaveFailIndexEnv
        ["a"] ["s"]).2.1.is_loaded =
      (({ is_loaded := false } : RAGPipeline).is_loaded ||
        (index_documents { is_loaded := false } embedderInit demoSaveFailIndexEnv
          ["a"] ["s"]).1) :=
  (index_documents_safety Int { is_loaded := false } embedderInit
    demoSaveFailIndexEnv ["a"] ["s"]).1

/-- C5: On a successful run, `index_documents` performs exactly one remote
embedding call per document, on the truncated documents in input order, then
creates a fresh index sized to the embedder's reported dimension, then adds
all documents in input order, then persists, and only then is the pipeline
marked loaded. -/
theorem index_documents_success_order (α : Type) (p : RAGPipeline)
    (st : EmbedderState) (env : IndexEnv α) (documents sources : List String)
    (embeddings : List (List α))
    (hembed : (embed_texts env.embed st documents).1 = .ok embeddings)
    (hflag : (index_documents p st env documents sources).1 = true) :
    (index_documents p st env documents sources).2.2.2 =
      documents.map (fun t => IndexEvent.embedCall (truncateText t)) ++
        [IndexEvent.createIndex
            (get_embedding_dimension
              (index_documents p st env documents sources).2.2.1),
          IndexEvent.addDocuments documents embeddings sources,
          IndexEvent.save] ∧
    (index_documents p st env documents sources).2.1.is_loaded = true := by
  rcases het : embed_texts env.embed st documents with ⟨res, st', sent⟩
  have hres : res = .ok embeddings := by rw [het] at hembed; exact hembed
  subst hres
  have hsent : sent = documents.map truncateText :=
    embed_texts_sent_eq env.embed st documents embeddings st' sent het
  cases hc : env.create_index st'.dimension with
  | error e => simp [index_documents, het, hc, get_embedding_dimension] at hflag
  | ok u =>
    cases u
    cases ha : env.add_documents documents embeddings sources with
    | error e => simp [index_documents, het, hc, ha, get_embedding_dimension] at hflag
    | ok u2 =>
      cases u2
      cases hs : env.save with
      | error e =>
        simp [index_documents, het, hc, ha, hs, get_embedding_dimension] at hflag
      | ok u3 =>
        cases u3
        constructor
        · simp [index_documents, het, hc, ha, hs, hsent, get_embedding_dimension,
            List.map_map]
        · simp [index_documents, het, hc, ha, hs, get_embedding_dimension]

/-- Witness for C5: a concrete successful two-document run. -/
theorem index_documents_success_order_witness :
    (index_documents { is_loaded := false } embedderInit demoIndexEnv
        ["a", "b"] ["s1", "s2"]).2.2.2 =
      (["a", "b"].map fun t => IndexEvent.embedCall (truncateText t)) ++
        [IndexEvent.createIndex
            (get_embedding_dimension
              (index_documents { is_loaded := false } embedderInit demoIndexEnv
                ["a", "b"] ["s1", "s2"]).2.2.1),
          IndexEvent.addDocuments ["a", "b"] [[1], [1]] ["s1", "s2"],
          IndexEvent.save] ∧
    (index_documents { is_loaded := false } embedderInit demoIndexEnv
        ["a", "b"] ["s1", "s2"]).2.1.is_loaded = true :=
  index_documents_success_order Int { is_loaded := false } embedderInit
    demoIndexEnv ["a", "b"] ["s1", "s2"] [[1], [1]] rfl rfl

end RAGBot
